import Mathlib

/-!
Shallow embedding of the PacDisco payments Netlify function
(src/netlify/functions/payments.js and the snapshot variants
src/unnamed/part_000, part_001, part_002).

JavaScript numbers are modeled as exact rationals together with an explicit
NaN sentinel; the JS semantics of arithmetic and comparison on NaN (every
comparison with NaN is false, arithmetic propagates NaN) is reproduced.
Raw CRM string fields and query parameters are classified by what the
numeric parsers of the source (`safeNumber`, `num`) yield on them.

The file payments.js contains two concatenated snapshots of the handler;
the second one (file lines 703-1303, with the payment-type resolution)
is embedded in namespace `PJ`, and the older sibling predicate
(file lines 356-406) in namespace `PJ1`.  The variants in part_000,
part_001 and part_002 are embedded in namespaces `P0`, `P1`, `P2`.
-/

/-- A JavaScript number: NaN, or a finite value modeled as a rational. -/
inductive JSNum where
  | nan : JSNum
  | num : ℚ → JSNum
deriving DecidableEq

/-- JS addition; NaN propagates. -/
def jsAdd : JSNum → JSNum → JSNum
  | JSNum.num a, JSNum.num b => JSNum.num (a + b)
  | _, _ => JSNum.nan

/-- JS subtraction; NaN propagates. -/
def jsSub : JSNum → JSNum → JSNum
  | JSNum.num a, JSNum.num b => JSNum.num (a - b)
  | _, _ => JSNum.nan

/-- JS multiplication; NaN propagates. -/
def jsMul : JSNum → JSNum → JSNum
  | JSNum.num a, JSNum.num b => JSNum.num (a * b)
  | _, _ => JSNum.nan

/-- JS `<`: any comparison involving NaN is false. -/
def jsLt : JSNum → JSNum → Bool
  | JSNum.num a, JSNum.num b => decide (a < b)
  | _, _ => false

/-- JS `>`: any comparison involving NaN is false. -/
def jsGt : JSNum → JSNum → Bool
  | JSNum.num a, JSNum.num b => decide (b < a)
  | _, _ => false

/-- JS `<=`: any comparison involving NaN is false. -/
def jsLe : JSNum → JSNum → Bool
  | JSNum.num a, JSNum.num b => decide (a ≤ b)
  | _, _ => false

/-- JS `isNaN` on a number value. -/
def jsIsNaN : JSNum → Bool
  | JSNum.nan => true
  | JSNum.num _ => false

/-- JS truthiness of a number: 0 and NaN are falsy. -/
def jsTruthy : JSNum → Bool
  | JSNum.nan => false
  | JSNum.num q => decide (q ≠ 0)

/-- `Math.round`: round half up; NaN propagates. -/
def jsRound : JSNum → JSNum
  | JSNum.nan => JSNum.nan
  | JSNum.num q => JSNum.num (⌊q + 1/2⌋ : ℚ)

/-- Classification of a raw string by what `Number()` yields on it:
the empty string (`Number` gives 0 but `safeNumber` rejects it explicitly),
a nonempty string that does not parse (`Number` gives NaN), or a nonempty
string parsing to a finite value. -/
inductive RawStr where
  | empty : RawStr
  | nonnum : RawStr
  | numeric : ℚ → RawStr
deriving DecidableEq

/-- `safeNumber` of payments.js (file lines 682-686 and 1295-1299),
part_001 (lines 864-868) and part_002: null/undefined, the empty string and
an unparsable string all yield NaN; `none` models an absent value. -/
def safeNumber : Option RawStr → JSNum
  | none => JSNum.nan
  | some RawStr.empty => JSNum.nan
  | some RawStr.nonnum => JSNum.nan
  | some (RawStr.numeric q) => JSNum.num q

/-- `num` of part_000 (lines 560-563) applied to a query parameter: an absent
parameter is `null` and `Number(null) = 0`; an empty string also parses to 0. -/
def numParam : Option RawStr → JSNum
  | none => JSNum.num 0
  | some RawStr.empty => JSNum.num 0
  | some RawStr.nonnum => JSNum.nan
  | some (RawStr.numeric q) => JSNum.num q

/-- `num` of part_000 applied to a deal property: an absent property is
`undefined` and `Number(undefined) = NaN`; an empty string parses to 0. -/
def numProp : Option RawStr → JSNum
  | none => JSNum.nan
  | some RawStr.empty => JSNum.num 0
  | some RawStr.nonnum => JSNum.nan
  | some (RawStr.numeric q) => JSNum.num q

/-- An itemized payment slot (`payment_1` .. `payment_5`): absent or empty raw
string (falsy, skipped by every parser), or a present raw string whose first
comma-separated trimmed token is classified by `RawStr`. -/
inductive Slot where
  | absent : Slot
  | entry : RawStr → Slot
deriving DecidableEq

/-- The deal properties read from the CRM (payments.js `getDealById`
property list): tuition `amount`, rollup `total_amount_paid` and the five
itemized payment slots. -/
structure DealProps where
  amount : Option RawStr
  total_amount_paid : Option RawStr
  payment_1 : Slot
  payment_2 : Slot
  payment_3 : Slot
  payment_4 : Slot
  payment_5 : Slot
deriving DecidableEq

/-- The query parameters of a checkout request (payments.js lines 720-723,
773, 784). `none` models an absent parameter. -/
structure Query where
  email : Option String
  dealId : Option String
  type : Option String
  amount : Option RawStr
deriving DecidableEq

/-- The data submitted to the checkout collaborator: the resolved base
amount, the unrounded total with the 3.5 percent surcharge, the rounded
minor-unit amount `Math.round(totalWithFee * 100)`, the line-item label and
the metadata payment type. -/
structure Session where
  baseAmount : JSNum
  totalWithFee : JSNum
  unit_amount : JSNum
  label : String
  paymentType : String
deriving DecidableEq

/-- Outcome of the checkout branch: a plain-text rejection with an HTTP
status, or a created checkout session (the 302 redirect). -/
inductive CheckoutResult where
  | reject : Nat → String → CheckoutResult
  | session : Session → CheckoutResult
deriving DecidableEq

def tAppfee : String := "appfee"

def tDeposit : String := "deposit"

def tCustom : String := "custom"

def tRemaining : String := "remaining"

def lblAppFee : String := "Application Fee"

def lblDeposit : String := "Program Deposit"

def lblCustom : String := "Custom Payment"

def lblRemaining : String := "Remaining Program Balance"

/-- part_000 line 120 labels the default branch differently. -/
def lblRemainingP0 : String := "Remaining Balance"

/-- `type || "remaining"` (part_002 line 83; metadata of part_000 line 154
and part_001 line 189): null and the empty string default to remaining. -/
def typeOrRemaining : Option String → String
  | none => tRemaining
  | some s => if s.isEmpty then tRemaining else s

/-- The five itemized slots in source order. -/
def slotList (p : DealProps) : List Slot :=
  [p.payment_1, p.payment_2, p.payment_3, p.payment_4, p.payment_5]

/-- Amount extracted from one slot by the `safeNumber`-based parsers
(payments.js lines 756-762 and 979-991, part_001 `parsePayments`
lines 529-548, part_002 lines 56-63): skip an absent or empty raw string,
skip an empty or unparsable first token, keep a numeric amount. -/
def slotAmount : Slot → Option ℚ
  | Slot.absent => none
  | Slot.entry RawStr.empty => none
  | Slot.entry RawStr.nonnum => none
  | Slot.entry (RawStr.numeric q) => some q

/-- The parsed payment amounts of the five slots. -/
def paymentsOf (p : DealProps) : List ℚ :=
  (slotList p).filterMap slotAmount

/-- `payments.reduce((s, pay) => s + pay.amount, 0)`. -/
def sumPayments (l : List ℚ) : ℚ :=
  l.foldl (fun s a => s + a) 0

/-- `totalPaid` (payments.js lines 764-766 and 993-995, part_001
lines 125-128 and 338-341, part_002 lines 65-67): the rollup field when it
parses to a number, otherwise the sum of the parsed itemized amounts. -/
def totalPaid (p : DealProps) : ℚ :=
  match safeNumber p.total_amount_paid with
  | JSNum.num v => v
  | JSNum.nan => sumPayments (paymentsOf p)

/-- `remaining` (payments.js line 768 `programFee - totalPaid`; the guarded
forms at payments.js line 997, part_001 line 130 and part_002 lines 69-70
compute the same value because `totalPaid` is always a number). -/
def remainingOf (p : DealProps) : JSNum :=
  jsSub (safeNumber p.amount) (JSNum.num (totalPaid p))

/-- `depositRemaining = Math.max(0, 2500 - totalPaid)` (payments.js
lines 770-771, part_001 line 131, part_002 lines 79-80). `totalPaid` is
always a number, so no NaN arises. -/
def depositRemaining (p : DealProps) : ℚ :=
  max 0 (2500 - totalPaid p)

/-- The session construction shared by all checkout variants
(payments.js lines 803-836, part_000 lines 125-155, part_001 lines 159-190,
part_002 lines 123-160): `fee = base * 0.035`, `totalWithFee = base + fee`,
`unit_amount = Math.round(totalWithFee * 100)`. -/
def mkStripeSession (base : JSNum) (label ty : String) : Session :=
  let fee := jsMul base (JSNum.num (7/200))
  let totalWithFee := jsAdd base fee
  { baseAmount := base
    totalWithFee := totalWithFee
    unit_amount := jsRound (jsMul totalWithFee (JSNum.num 100))
    label := label
    paymentType := ty }

namespace PJ

def msgMissingDealId : String := "Missing dealId."

def msgDealNotFound : String := "Deal not found."

def msgInvalidCustom : String := "Invalid custom amount."

def msgMinCustom : String := "Minimum custom payment is $250."

def msgExceeds : String := "Custom amount exceeds remaining balance."

def msgNoBalance : String := "No outstanding balance."

/-- Payment-type resolution of payments.js (file lines 773-796): the if/else
chain on `type` producing `baseAmount` and the label, or an early rejection
for an invalid custom amount.  The custom upper-bound check is
`amt > remaining + 0.01` (line 788). -/
def resolve (q : Query) (p : DealProps) :
    Except (Nat × String) (JSNum × String × String) :=
  if q.type = some tAppfee then
    Except.ok (JSNum.num 250, lblAppFee, tAppfee)
  else if q.type = some tDeposit then
    Except.ok (JSNum.num (depositRemaining p), lblDeposit, tDeposit)
  else if q.type = some tCustom then
    match safeNumber q.amount with
    | JSNum.nan => Except.error (400, msgInvalidCustom)
    | JSNum.num amt =>
      if amt < 250 then
        Except.error (400, msgMinCustom)
      else if jsGt (JSNum.num amt) (jsAdd (remainingOf p) (JSNum.num (1/100))) then
        Except.error (400, msgExceeds)
      else
        Except.ok (JSNum.num amt, lblCustom, tCustom)
  else
    Except.ok (remainingOf p, lblRemaining, tRemaining)

/-- The checkout branch of payments.js (file lines 736-843), after the
configuration checks: missing dealId check, deal lookup, balance
calculation, payment-type resolution, the `baseAmount <= 0` guard
(line 798, which is false on NaN) and session creation. -/
def checkout (q : Query) (lookup : String → Option DealProps) : CheckoutResult :=
  match q.dealId with
  | none => CheckoutResult.reject 400 msgMissingDealId
  | some id =>
    if id.isEmpty then CheckoutResult.reject 400 msgMissingDealId
    else
      match lookup id with
      | none => CheckoutResult.reject 404 msgDealNotFound
      | some p =>
        match resolve q p with
        | Except.error e => CheckoutResult.reject e.1 e.2
        | Except.ok (baseAmount, label, ty) =>
          if jsLe baseAmount (JSNum.num 0) then
            CheckoutResult.reject 400 msgNoBalance
          else
            CheckoutResult.session (mkStripeSession baseAmount label ty)

/-- The checkout path of the handler with the process-wide
`contactEmailGlobal` (file lines 716 and 725) threaded explicitly: the
handler overwrites the global with the request email and the checkout branch
never reads it. -/
def handlerCheckoutState (g : Option String) (q : Query)
    (lookup : String → Option DealProps) : CheckoutResult × Option String :=
  let contactEmailGlobal := q.email
  (checkout q lookup, contactEmailGlobal)

/-- Which payment links `renderDealPortal` offers (file lines 973-1004 for
the derived quantities; the application-fee block at lines 1051-1062 is
guarded by `showAppFee`, the deposit block at lines 1064-1075 by
`showDeposit && hasRemaining`, the remaining-balance block at
lines 1077-1086 by `hasRemaining`). -/
structure PortalLinks where
  appFeeLink : Bool
  depositLink : Bool
  remainingLink : Bool
deriving DecidableEq

/-- `showAppFee = totalPaid === 0`, `showDeposit = totalPaid > 0 &&
totalPaid < 2250`, `hasRemaining = remaining > 0` (file lines 1002-1004)
and the guards of the three link blocks. -/
def portalLinks (p : DealProps) : PortalLinks :=
  let tp := totalPaid p
  let rem := remainingOf p
  let showAppFee := decide (tp = 0)
  let showDeposit := decide (0 < tp) && decide (tp < 2250)
  let hasRemaining := jsGt rem (JSNum.num 0)
  { appFeeLink := showAppFee
    depositLink := showDeposit && hasRemaining
    remainingLink := hasRemaining }

end PJ

namespace PJ1

/-- `fee` of the first payments.js snapshot (file lines 386-387):
`!isNaN(remaining) && remaining > 0 ? remaining * 0.035 : NaN`. -/
def fee (p : DealProps) : JSNum :=
  match remainingOf p with
  | JSNum.num r => if 0 < r then JSNum.num (r * (7/200)) else JSNum.nan
  | JSNum.nan => JSNum.nan

/-- `totalWithFee` (file lines 388-389). -/
def totalWithFee (p : DealProps) : JSNum :=
  match remainingOf p, fee p with
  | JSNum.num r, JSNum.num f => JSNum.num (r + f)
  | _, _ => JSNum.nan

/-- `shouldShowPayButton` (file lines 405-406): the single pay-balance
button of the older portal is shown only when `remaining > 0.01`. -/
def shouldShowPayButton (p : DealProps) : Bool :=
  !jsIsNaN (remainingOf p) && jsGt (remainingOf p) (JSNum.num (1/100))
    && !jsIsNaN (totalWithFee p)

end PJ1

namespace P0

def msgInvalidAmount : String := "Invalid amount."

def msgNoBalance : String := "No balance due."

/-- Slot parsing of part_000 (lines 549-558): `num` is used, so an empty
first token parses to 0 and is kept as a zero payment; an unparsable token
is skipped. -/
def slotAmountNum : Slot → Option ℚ
  | Slot.absent => none
  | Slot.entry RawStr.empty => some 0
  | Slot.entry RawStr.nonnum => none
  | Slot.entry (RawStr.numeric q) => some q

def paymentsOf (p : DealProps) : List ℚ :=
  (slotList p).filterMap slotAmountNum

/-- `totalPaid` of part_000 (lines 94-97), using `num` on the rollup
property (an empty string counts as the number 0 here). -/
def totalPaid (p : DealProps) : ℚ :=
  match numProp p.total_amount_paid with
  | JSNum.num v => v
  | JSNum.nan => sumPayments (paymentsOf p)

/-- `remaining = tuition - totalPaid` of part_000 (lines 93 and 99). -/
def remainingOf (p : DealProps) : JSNum :=
  jsSub (numProp p.amount) (JSNum.num (totalPaid p))

/-- `depositRemaining = Math.max(0, 2500 - totalPaid)` (part_000 line 100). -/
def depositRemaining (p : DealProps) : ℚ :=
  max 0 (2500 - totalPaid p)

/-- Payment-type resolution of part_000 (lines 102-121).  The custom branch
(lines 111-117) rejects only when `amt < 250 || amt > remaining`: both
comparisons are false on a NaN amount, so an unparsable amount string flows
through as a NaN base. -/
def resolve (q : Query) (p : DealProps) :
    Except (Nat × String) (JSNum × String) :=
  if q.type = some tAppfee then
    Except.ok (JSNum.num 250, lblAppFee)
  else if q.type = some tDeposit then
    Except.ok (JSNum.num (depositRemaining p), lblDeposit)
  else if q.type = some tCustom then
    let amt := numParam q.amount
    if jsLt amt (JSNum.num 250) || jsGt amt (remainingOf p) then
      Except.error (400, msgInvalidAmount)
    else
      Except.ok (amt, lblCustom)
  else
    Except.ok (remainingOf p, lblRemainingP0)

/-- `handleStripeCheckout` of part_000 (lines 76-162), after the
configuration check: missing-dealId check, lookup, resolution, the
`base <= 0` guard (line 123) and session creation. -/
def checkout (q : Query) (lookup : String → Option DealProps) : CheckoutResult :=
  match q.dealId with
  | none => CheckoutResult.reject 400 PJ.msgMissingDealId
  | some id =>
    if id.isEmpty then CheckoutResult.reject 400 PJ.msgMissingDealId
    else
      match lookup id with
      | none => CheckoutResult.reject 404 PJ.msgDealNotFound
      | some p =>
        match resolve q p with
        | Except.error e => CheckoutResult.reject e.1 e.2
        | Except.ok (base, label) =>
          if jsLe base (JSNum.num 0) then
            CheckoutResult.reject 400 msgNoBalance
          else
            CheckoutResult.session
              (mkStripeSession base label (typeOrRemaining q.type))

end P0

namespace P1

def msgInvalid : String := "Invalid amount."

def msgMin : String := "Minimum payment is $250."

def msgExceeds : String := "Amount cannot exceed remaining balance."

def msgNoBalance : String := "No balance due."

/-- Payment-type resolution of part_001 (lines 133-153).  The custom branch
(lines 142-149) rejects a NaN amount, enforces the 250 minimum and applies
the upper bound only when `remaining` is a number. -/
def resolve (q : Query) (p : DealProps) :
    Except (Nat × String) (JSNum × String) :=
  if q.type = some tAppfee then
    Except.ok (JSNum.num 250, lblAppFee)
  else if q.type = some tDeposit then
    Except.ok (JSNum.num (depositRemaining p), lblDeposit)
  else if q.type = some tCustom then
    match safeNumber q.amount with
    | JSNum.nan => Except.error (400, msgInvalid)
    | JSNum.num amt =>
      if amt < 250 then
        Except.error (400, msgMin)
      else if !jsIsNaN (remainingOf p)
          && jsGt (JSNum.num amt) (remainingOf p) then
        Except.error (400, msgExceeds)
      else
        Except.ok (JSNum.num amt, lblCustom)
  else
    Except.ok (remainingOf p, lblRemaining)

/-- `handleStripeCheckout` of part_001 (lines 105-197), after the
configuration check.  The balance calculator (lines 122-131) is the
`safeNumber`-based one shared with payments.js.  The universal guard
(lines 155-157) is `!base || isNaN(base) || base <= 0`. -/
def checkout (q : Query) (lookup : String → Option DealProps) : CheckoutResult :=
  match q.dealId with
  | none => CheckoutResult.reject 400 PJ.msgMissingDealId
  | some id =>
    if id.isEmpty then CheckoutResult.reject 400 PJ.msgMissingDealId
    else
      match lookup id with
      | none => CheckoutResult.reject 404 PJ.msgDealNotFound
      | some p =>
        match resolve q p with
        | Except.error e => CheckoutResult.reject e.1 e.2
        | Except.ok (base, label) =>
          if !jsTruthy base || jsIsNaN base || jsLe base (JSNum.num 0) then
            CheckoutResult.reject 400 msgNoBalance
          else
            CheckoutResult.session
              (mkStripeSession base label (typeOrRemaining q.type))

end P1

namespace P2

def msgMissing : String := "Missing dealId for checkout."

def msgUndetermined : String := "Unable to determine remaining balance for this program."

def msgInvalidCustom : String := "Invalid custom payment amount."

def msgMinCustom : String := "Minimum custom payment amount is $250 USD."

def msgExceeds : String := "Custom payment amount cannot exceed remaining balance."

def msgNoBalance : String := "There is no outstanding balance to pay."

/-- Payment-type resolution of part_002 (lines 82-117), evaluated with the
type already defaulted via `|| "remaining"` (line 83) and with `remaining`
known to be the number `r` (the NaN case returned earlier).  The custom
upper bound is `customAmount - remaining > 0.01` (line 105). -/
def resolve (q : Query) (p : DealProps) (r : ℚ) :
    Except (Nat × String) (JSNum × String) :=
  let ty := typeOrRemaining q.type
  if ty = tAppfee then
    Except.ok (JSNum.num 250, lblAppFee)
  else if ty = tDeposit then
    Except.ok (JSNum.num (depositRemaining p), lblDeposit)
  else if ty = tCustom then
    match safeNumber q.amount with
    | JSNum.nan => Except.error (400, msgInvalidCustom)
    | JSNum.num amt =>
      if amt < 250 then
        Except.error (400, msgMinCustom)
      else if (1/100 : ℚ) < amt - r then
        Except.error (400, msgExceeds)
      else
        Except.ok (JSNum.num amt, lblCustom)
  else
    Except.ok (JSNum.num r, lblRemaining)

/-- The checkout branch of part_002 (lines 33-167), after the configuration
checks.  Unlike payments.js it rejects early when `remaining` is NaN
(lines 72-77) and guards with `isNaN(baseAmount) || baseAmount <= 0`
(lines 119-121). -/
def checkout (q : Query) (lookup : String → Option DealProps) : CheckoutResult :=
  match q.dealId with
  | none => CheckoutResult.reject 400 msgMissing
  | some id =>
    if id.isEmpty then CheckoutResult.reject 400 msgMissing
    else
      match lookup id with
      | none => CheckoutResult.reject 404 PJ.msgDealNotFound
      | some p =>
        match remainingOf p with
        | JSNum.nan => CheckoutResult.reject 400 msgUndetermined
        | JSNum.num r =>
          match resolve q p r with
          | Except.error e => CheckoutResult.reject e.1 e.2
          | Except.ok (base, label) =>
            if jsIsNaN base || jsLe base (JSNum.num 0) then
              CheckoutResult.reject 400 msgNoBalance
            else
              CheckoutResult.session
                (mkStripeSession base label (typeOrRemaining q.type))

/-- Link eligibility of part_002 renderDealPortal (lines 383-385 for the
flags; the application-fee block at lines 436-447 is guarded by
`shouldShowAppFeeBtn`, the deposit block at lines 449-460 by
`shouldShowDepositBtn && hasRemaining`, the remaining-balance block at
lines 462-478 by `hasRemaining`). -/
def portalLinks (p : DealProps) : PJ.PortalLinks :=
  let tp := totalPaid p
  let shouldShowAppFeeBtn := decide (tp = 0)
  let shouldShowDepositBtn := decide (0 < tp) && decide (tp < 2250)
  let hasRemaining := !jsIsNaN (remainingOf p) && jsGt (remainingOf p) (JSNum.num 0)
  { appFeeLink := shouldShowAppFeeBtn
    depositLink := shouldShowDepositBtn && hasRemaining
    remainingLink := hasRemaining }

end P2

/-! Concrete test fixtures used by the counterexamples and witnesses. -/

/-- A deal whose five itemized slots are all absent. -/
def mkDeal (a t : Option RawStr) : DealProps :=
  { amount := a
    total_amount_paid := t
    payment_1 := Slot.absent
    payment_2 := Slot.absent
    payment_3 := Slot.absent
    payment_4 := Slot.absent
    payment_5 := Slot.absent }

def theDealId : String := "deal-1"

/-- Tuition 10000, rollup total paid 2500: remaining balance 7500. -/
def dealA : DealProps :=
  mkDeal (some (RawStr.numeric 10000)) (some (RawStr.numeric 2500))

/-- Unparsable tuition field, rollup total paid 0: NaN remaining balance. -/
def dealNanTuition : DealProps :=
  mkDeal (some RawStr.nonnum) (some (RawStr.numeric 0))

/-- Tuition 2000 fully paid: remaining balance 0 with 0 < totalPaid < 2250. -/
def dealFullyPaid : DealProps :=
  mkDeal (some (RawStr.numeric 2000)) (some (RawStr.numeric 2000))

/-- Tuition 1000.005, paid 1000: positive remaining balance of half a cent. -/
def dealTiny : DealProps :=
  mkDeal (some (RawStr.numeric (200001/200))) (some (RawStr.numeric 1000))

/-- Tuition 5000, rollup absent, no readable itemized payments. -/
def dealBare : DealProps :=
  mkDeal (some (RawStr.numeric 5000)) none

/-- Rollup 2500 with a 100-valued itemized slot that must be ignored. -/
def dealRollup : DealProps :=
  { amount := some (RawStr.numeric 10000)
    total_amount_paid := some (RawStr.numeric 2500)
    payment_1 := Slot.entry (RawStr.numeric 100)
    payment_2 := Slot.absent
    payment_3 := Slot.absent
    payment_4 := Slot.absent
    payment_5 := Slot.absent }

/-- A checkout query with the given custom amount parameter. -/
def qCustomOf (a : Option RawStr) : Query :=
  { email := none, dealId := some theDealId, type := some tCustom, amount := a }

/-- A checkout query with the given type parameter and no amount. -/
def qTypeOf (t : Option String) : Query :=
  { email := none, dealId := some theDealId, type := t, amount := none }

/-- A checkout query with no dealId. -/
def qNoDeal : Query :=
  { email := none, dealId := none, type := none, amount := none }

/-- A lookup that returns the given deal for every id. -/
def lookupOf (p : DealProps) : String → Option DealProps :=
  fun _ => some p

/-! Helper lemmas about the balance calculator. -/

theorem totalPaid_rollup {p : DealProps} {v : ℚ}
    (h : safeNumber p.total_amount_paid = JSNum.num v) : totalPaid p = v := by
  simp [totalPaid, h]

theorem totalPaid_fallback {p : DealProps}
    (h : safeNumber p.total_amount_paid = JSNum.nan) :
    totalPaid p = sumPayments (paymentsOf p) := by
  simp [totalPaid, h]

theorem remainingOf_num {p : DealProps} {t : ℚ}
    (h : safeNumber p.amount = JSNum.num t) :
    remainingOf p = JSNum.num (t - totalPaid p) := by
  simp [remainingOf, h, jsSub]

theorem remainingOf_isNan {p : DealProps} (h : safeNumber p.amount = JSNum.nan) :
    remainingOf p = JSNum.nan := by
  simp [remainingOf, h, jsSub]

theorem remainingOf_dealA : remainingOf dealA = JSNum.num 7500 := by
  have h1 : safeNumber dealA.amount = JSNum.num 10000 := rfl
  have h2 : safeNumber dealA.total_amount_paid = JSNum.num 2500 := rfl
  rw [remainingOf_num h1, totalPaid_rollup h2]
  norm_num

/-! Helper lemmas unfolding the payments.js checkout branch. -/

namespace PJ

theorem resolve_appfee {q : Query} (p : DealProps) (h : q.type = some tAppfee) :
    resolve q p = Except.ok (JSNum.num 250, lblAppFee, tAppfee) := by
  simp [resolve, h]

theorem resolve_deposit {q : Query} (p : DealProps) (h : q.type = some tDeposit) :
    resolve q p =
      Except.ok (JSNum.num (depositRemaining p), lblDeposit, tDeposit) := by
  simp [resolve, h, tAppfee, tDeposit]

theorem resolve_default {q : Query} (p : DealProps)
    (h1 : q.type ≠ some tAppfee) (h2 : q.type ≠ some tDeposit)
    (h3 : q.type ≠ some tCustom) :
    resolve q p = Except.ok (remainingOf p, lblRemaining, tRemaining) := by
  rw [resolve, if_neg h1, if_neg h2, if_neg h3]

theorem resolve_custom_invalid {q : Query} (p : DealProps)
    (h : q.type = some tCustom) (ha : safeNumber q.amount = JSNum.nan) :
    resolve q p = Except.error (400, msgInvalidCustom) := by
  simp [resolve, h, ha, tAppfee, tDeposit, tCustom]

theorem resolve_custom_min {q : Query} (p : DealProps) {amt : ℚ}
    (h : q.type = some tCustom) (ha : safeNumber q.amount = JSNum.num amt)
    (hlt : amt < 250) :
    resolve q p = Except.error (400, msgMinCustom) := by
  simp [resolve, h, ha, hlt, tAppfee, tDeposit, tCustom]

theorem resolve_custom_over {q : Query} (p : DealProps) {amt : ℚ}
    (h : q.type = some tCustom) (ha : safeNumber q.amount = JSNum.num amt)
    (hge : ¬ amt < 250)
    (hover : jsGt (JSNum.num amt) (jsAdd (remainingOf p) (JSNum.num (1/100))) = true) :
    resolve q p = Except.error (400, msgExceeds) := by
  have hne1 : q.type ≠ some tAppfee := by simp [h, tAppfee, tCustom]
  have hne2 : q.type ≠ some tDeposit := by simp [h, tDeposit, tCustom]
  rw [resolve, if_neg hne1, if_neg hne2, if_pos h, ha]
  simp only [hge, hover, if_false, if_true, ite_true, ite_false]

theorem resolve_custom_ok {q : Query} (p : DealProps) {amt : ℚ}
    (h : q.type = some tCustom) (ha : safeNumber q.amount = JSNum.num amt)
    (hge : ¬ amt < 250)
    (hin : jsGt (JSNum.num amt) (jsAdd (remainingOf p) (JSNum.num (1/100))) = false) :
    resolve q p = Except.ok (JSNum.num amt, lblCustom, tCustom) := by
  have hne1 : q.type ≠ some tAppfee := by simp [h, tAppfee, tCustom]
  have hne2 : q.type ≠ some tDeposit := by simp [h, tDeposit, tCustom]
  rw [resolve, if_neg hne1, if_neg hne2, if_pos h, ha]
  simp only [hge, hin, if_false, if_true, ite_true, ite_false, Bool.false_eq_true]

theorem checkout_missing {q : Query} (lookup : String → Option DealProps)
    (hd : q.dealId = none) :
    checkout q lookup = CheckoutResult.reject 400 msgMissingDealId := by
  unfold checkout
  rw [hd]

theorem checkout_notfound {q : Query} {lookup : String → Option DealProps}
    {id : String} (hd : q.dealId = some id) (he : id.isEmpty = false)
    (hl : lookup id = none) :
    checkout q lookup = CheckoutResult.reject 404 msgDealNotFound := by
  unfold checkout
  rw [hd]
  simp only [he, Bool.false_eq_true, if_false, hl]

theorem checkout_reject_of_resolve {q : Query} {lookup : String → Option DealProps}
    {id : String} {p : DealProps} {n : Nat} {m : String}
    (hd : q.dealId = some id) (he : id.isEmpty = false) (hl : lookup id = some p)
    (hr : resolve q p = Except.error (n, m)) :
    checkout q lookup = CheckoutResult.reject n m := by
  unfold checkout
  rw [hd]
  simp only [he, Bool.false_eq_true, if_false, hl, hr]

theorem checkout_session_of {q : Query} {lookup : String → Option DealProps}
    {id : String} {p : DealProps} {b : JSNum} {l t : String}
    (hd : q.dealId = some id) (he : id.isEmpty = false) (hl : lookup id = some p)
    (hr : resolve q p = Except.ok (b, l, t))
    (hb : jsLe b (JSNum.num 0) = false) :
    checkout q lookup = CheckoutResult.session (mkStripeSession b l t) := by
  unfold checkout
  rw [hd]
  simp only [he, Bool.false_eq_true, if_false, hl, hr, hb]

theorem checkout_session_shape {q : Query} {lookup : String → Option DealProps}
    {s : Session} (h : checkout q lookup = CheckoutResult.session s) :
    ∃ b l t, jsLe b (JSNum.num 0) = false ∧ s = mkStripeSession b l t := by
  unfold checkout at h
  split at h
  · cases h
  · split at h
    · cases h
    · split at h
      · cases h
      · split at h
        · cases h
        · split at h
          · cases h
          · rename_i b l t hb
            exact ⟨_, _, _, by simpa using hb, (CheckoutResult.session.inj h).symm⟩

end PJ

/-! Helper lemmas unfolding the part_000 checkout. -/

namespace P0

theorem resolve_custom_pass {q : Query} (p : DealProps)
    (h : q.type = some tCustom)
    (hbound : (jsLt (numParam q.amount) (JSNum.num 250)
        || jsGt (numParam q.amount) (remainingOf p)) = false) :
    resolve q p = Except.ok (numParam q.amount, lblCustom) := by
  have hne1 : q.type ≠ some tAppfee := by simp [h, tAppfee, tCustom]
  have hne2 : q.type ≠ some tDeposit := by simp [h, tDeposit, tCustom]
  rw [resolve, if_neg hne1, if_neg hne2, if_pos h]
  simp only [hbound, Bool.false_eq_true, if_false, ite_false]

theorem resolve_custom_fail {q : Query} (p : DealProps)
    (h : q.type = some tCustom)
    (hbound : (jsLt (numParam q.amount) (JSNum.num 250)
        || jsGt (numParam q.amount) (remainingOf p)) = true) :
    resolve q p = Except.error (400, msgInvalidAmount) := by
  have hne1 : q.type ≠ some tAppfee := by simp [h, tAppfee, tCustom]
  have hne2 : q.type ≠ some tDeposit := by simp [h, tDeposit, tCustom]
  rw [resolve, if_neg hne1, if_neg hne2, if_pos h]
  simp only [hbound, if_true, ite_true]

theorem checkout_reject_of_resolve0 {q : Query} {lookup : String → Option DealProps}
    {id : String} {p : DealProps} {n : Nat} {m : String}
    (hd : q.dealId = some id) (he : id.isEmpty = false) (hl : lookup id = some p)
    (hr : resolve q p = Except.error (n, m)) :
    checkout q lookup = CheckoutResult.reject n m := by
  unfold checkout
  rw [hd]
  simp only [he, Bool.false_eq_true, if_false, hl, hr]

theorem checkout_session_of0 {q : Query} {lookup : String → Option DealProps}
    {id : String} {p : DealProps} {b : JSNum} {l : String}
    (hd : q.dealId = some id) (he : id.isEmpty = false) (hl : lookup id = some p)
    (hr : resolve q p = Except.ok (b, l))
    (hb : jsLe b (JSNum.num 0) = false) :
    checkout q lookup =
      CheckoutResult.session (mkStripeSession b l (typeOrRemaining q.type)) := by
  unfold checkout
  rw [hd]
  simp only [he, Bool.false_eq_true, if_false, hl, hr, hb]

end P0

/-! Helper lemmas unfolding the part_001 checkout. -/

namespace P1

theorem resolve_custom_ok1 {q : Query} (p : DealProps) {amt : ℚ}
    (h : q.type = some tCustom) (ha : safeNumber q.amount = JSNum.num amt)
    (hge : ¬ amt < 250)
    (hin : (!jsIsNaN (remainingOf p)
        && jsGt (JSNum.num amt) (remainingOf p)) = false) :
    resolve q p = Except.ok (JSNum.num amt, lblCustom) := by
  have hne1 : q.type ≠ some tAppfee := by simp [h, tAppfee, tCustom]
  have hne2 : q.type ≠ some tDeposit := by simp [h, tDeposit, tCustom]
  rw [resolve, if_neg hne1, if_neg hne2, if_pos h, ha]
  simp only [hge, hin, Bool.false_eq_true, if_false, ite_false]

theorem checkout_session_of1 {q : Query} {lookup : String → Option DealProps}
    {id : String} {p : DealProps} {b : JSNum} {l : String}
    (hd : q.dealId = some id) (he : id.isEmpty = false) (hl : lookup id = some p)
    (hr : resolve q p = Except.ok (b, l))
    (hb : (!jsTruthy b || jsIsNaN b || jsLe b (JSNum.num 0)) = false) :
    checkout q lookup =
      CheckoutResult.session (mkStripeSession b l (typeOrRemaining q.type)) := by
  unfold checkout
  rw [hd]
  simp only [he, Bool.false_eq_true, if_false, hl, hr, hb]

theorem checkout_session_shape1 {q : Query} {lookup : String → Option DealProps}
    {s : Session} (h : checkout q lookup = CheckoutResult.session s) :
    ∃ b l,
      (!jsTruthy b || jsIsNaN b || jsLe b (JSNum.num 0)) = false
      ∧ s = mkStripeSession b l (typeOrRemaining q.type) := by
  unfold checkout at h
  split at h
  · cases h
  · split at h
    · cases h
    · split at h
      · cases h
      · split at h
        · cases h
        · split at h
          · cases h
          · rename_i b l hb
            exact ⟨_, _, by simpa using hb, (CheckoutResult.session.inj h).symm⟩

end P1

/-! Helper lemmas unfolding the part_002 checkout. -/

namespace P2

theorem checkout_session_shape2 {q : Query} {lookup : String → Option DealProps}
    {s : Session} (h : checkout q lookup = CheckoutResult.session s) :
    ∃ b l,
      (jsIsNaN b || jsLe b (JSNum.num 0)) = false
      ∧ s = mkStripeSession b l (typeOrRemaining q.type) := by
  unfold checkout at h
  split at h
  · cases h
  · split at h
    · cases h
    · split at h
      · cases h
      · split at h
        · cases h
        · split at h
          · cases h
          · split at h
            · cases h
            · rename_i b l hb
              exact ⟨_, _, by simpa using hb, (CheckoutResult.session.inj h).symm⟩

theorem checkout_missing2 {q : Query} (lookup : String → Option DealProps)
    (hd : q.dealId = none) :
    checkout q lookup = CheckoutResult.reject 400 msgMissing := by
  unfold checkout
  rw [hd]

theorem checkout_notfound2 {q : Query} {lookup : String → Option DealProps}
    {id : String} (hd : q.dealId = some id) (he : id.isEmpty = false)
    (hl : lookup id = none) :
    checkout q lookup = CheckoutResult.reject 404 PJ.msgDealNotFound := by
  unfold checkout
  rw [hd]
  simp only [he, Bool.false_eq_true, if_false, hl]

end P2

/-! Claim theorems. -/

/-- C4: for every deal, `totalPaid` equals the rollup field
`total_amount_paid` whenever it is present and parses to a number — the
itemized slots are then never consulted (third conjunct: two deals with the
same numeric rollup but arbitrary different slots have the same
`totalPaid`) — and only when the rollup is absent or non-numeric does
`totalPaid` equal the sum of the parsed itemized payment amounts. -/
theorem totalPaid_rollup_priority :
    (∀ p v, safeNumber p.total_amount_paid = JSNum.num v → totalPaid p = v)
    ∧ (∀ p, safeNumber p.total_amount_paid = JSNum.nan →
        totalPaid p = sumPayments (paymentsOf p))
    ∧ (∀ p p2 v, p.total_amount_paid = p2.total_amount_paid →
        safeNumber p.total_amount_paid = JSNum.num v →
        totalPaid p = totalPaid p2) := by
  refine ⟨fun p v h => totalPaid_rollup h, fun p h => totalPaid_fallback h, ?_⟩
  intro p p2 v he h
  have h2 : safeNumber p2.total_amount_paid = JSNum.num v := by rw [← he]; exact h
  rw [totalPaid_rollup h, totalPaid_rollup h2]

/-- Witness for C4: a deal with rollup 2500 and an itemized 100-valued slot
still totals 2500. -/
theorem totalPaid_rollup_priority_wit : totalPaid dealRollup = 2500 :=
  totalPaid_rollup_priority.1 dealRollup 2500 rfl

/-- C9: when the rollup field is absent or non-numeric and no itemized slot
parses to a payment record, `totalPaid` is exactly 0 — the sum of the empty
list, not the NaN sentinel — so `remainingBalance` equals the full tuition
and a full-balance charge is created for the default payment type. -/
theorem empty_payment_data_total_zero :
    ∀ p, safeNumber p.total_amount_paid = JSNum.nan → paymentsOf p = [] →
      totalPaid p = 0
      ∧ (∀ t, safeNumber p.amount = JSNum.num t → remainingOf p = JSNum.num t)
      ∧ (∀ t q lookup id, safeNumber p.amount = JSNum.num t → 0 < t →
          q.dealId = some id → id.isEmpty = false → lookup id = some p →
          q.type ≠ some tAppfee → q.type ≠ some tDeposit → q.type ≠ some tCustom →
          PJ.checkout q lookup =
            CheckoutResult.session
              (mkStripeSession (JSNum.num t) lblRemaining tRemaining)) := by
  intro p hroll hpay
  have htp : totalPaid p = 0 := by
    rw [totalPaid_fallback hroll, hpay]; rfl
  refine ⟨htp, ?_, ?_⟩
  · intro t ht
    rw [remainingOf_num ht, htp, sub_zero]
  · intro t q lookup id ht hpos hd he hl h1 h2 h3
    have hrem : remainingOf p = JSNum.num t := by
      rw [remainingOf_num ht, htp, sub_zero]
    have hr := PJ.resolve_default (q := q) p h1 h2 h3
    rw [hrem] at hr
    refine PJ.checkout_session_of hd he hl hr ?_
    simp only [jsLe, decide_eq_false_iff_not, not_le]
    exact hpos

/-- Witness for C9 at a concrete deal with tuition 5000 and no readable
payment data. -/
theorem empty_payment_data_total_zero_wit :
    totalPaid dealBare = 0
    ∧ PJ.checkout (qTypeOf none) (lookupOf dealBare) =
        CheckoutResult.session
          (mkStripeSession (JSNum.num 5000) lblRemaining tRemaining) := by
  have h := empty_payment_data_total_zero dealBare rfl rfl
  refine ⟨h.1, h.2.2 5000 (qTypeOf none) (lookupOf dealBare) theDealId rfl
    (by norm_num) rfl rfl rfl ?_ ?_ ?_⟩
  all_goals simp [qTypeOf]

/-- C5: the decision table of the payment-type resolver: `appfee` yields
base 250 with label Application Fee; `deposit` yields the deposit shortfall
`max(0, 2500 - totalPaid)` — never negative — with label Program Deposit;
`custom` yields the validated requested amount with label Custom Payment;
any other or absent type defaults to the remaining balance with label
Remaining Program Balance. -/
theorem payment_type_resolution :
    ∀ q p,
      (q.type = some tAppfee →
        PJ.resolve q p = Except.ok (JSNum.num 250, lblAppFee, tAppfee))
      ∧ (q.type = some tDeposit →
          PJ.resolve q p =
            Except.ok (JSNum.num (depositRemaining p), lblDeposit, tDeposit)
          ∧ depositRemaining p = max 0 (2500 - totalPaid p)
          ∧ 0 ≤ depositRemaining p)
      ∧ (∀ b l t2, q.type = some tCustom → PJ.resolve q p = Except.ok (b, l, t2) →
          l = lblCustom ∧ t2 = tCustom
          ∧ ∃ amt, safeNumber q.amount = JSNum.num amt ∧ b = JSNum.num amt)
      ∧ (q.type ≠ some tAppfee → q.type ≠ some tDeposit → q.type ≠ some tCustom →
          PJ.resolve q p = Except.ok (remainingOf p, lblRemaining, tRemaining)) := by
  intro q p
  refine ⟨fun h => PJ.resolve_appfee p h,
    fun h => ⟨PJ.resolve_deposit p h, rfl, le_max_left 0 _⟩, ?_,
    fun h1 h2 h3 => PJ.resolve_default p h1 h2 h3⟩
  intro b l t2 h hr
  have hne1 : q.type ≠ some tAppfee := by simp [h, tAppfee, tCustom]
  have hne2 : q.type ≠ some tDeposit := by simp [h, tDeposit, tCustom]
  rw [PJ.resolve, if_neg hne1, if_neg hne2, if_pos h] at hr
  split at hr
  · cases hr
  · rename_i amt ha
    split at hr
    · cases hr
    · split at hr
      · cases hr
      · simp only [Except.ok.injEq, Prod.mk.injEq] at hr
        obtain ⟨hb, hl2, ht2⟩ := hr
        exact ⟨hl2.symm, ht2.symm, amt, ha, hb.symm⟩

/-- Witness for C5: the appfee resolution at a concrete query and deal. -/
theorem payment_type_resolution_wit :
    PJ.resolve (qTypeOf (some tAppfee)) dealA =
      Except.ok (JSNum.num 250, lblAppFee, tAppfee) :=
  (payment_type_resolution (qTypeOf (some tAppfee)) dealA).1 rfl

/-- C7: a checkout request without a dealId is rejected 400 before any deal
lookup (the outcome is the same for every lookup), a request whose dealId
resolves to no deal is rejected 404, and neither rejection creates a
checkout session; this holds for payments.js and for the part_002
variant. -/
theorem failure_check_order :
    ∀ q lookup,
      (q.dealId = none →
        PJ.checkout q lookup = CheckoutResult.reject 400 PJ.msgMissingDealId
        ∧ (∀ s, PJ.checkout q lookup ≠ CheckoutResult.session s)
        ∧ (∀ lookup2, PJ.checkout q lookup = PJ.checkout q lookup2)
        ∧ P2.checkout q lookup = CheckoutResult.reject 400 P2.msgMissing
        ∧ (∀ lookup2, P2.checkout q lookup = P2.checkout q lookup2))
      ∧ (∀ id, q.dealId = some id → id.isEmpty = false → lookup id = none →
          PJ.checkout q lookup = CheckoutResult.reject 404 PJ.msgDealNotFound
          ∧ (∀ s, PJ.checkout q lookup ≠ CheckoutResult.session s)
          ∧ P2.checkout q lookup = CheckoutResult.reject 404 PJ.msgDealNotFound) := by
  intro q lookup
  constructor
  · intro hd
    have h1 := PJ.checkout_missing lookup hd
    have h2 := P2.checkout_missing2 lookup hd
    refine ⟨h1, ?_, ?_, h2, ?_⟩
    · intro s hs
      rw [h1] at hs
      cases hs
    · intro lookup2
      exact h1.trans (PJ.checkout_missing lookup2 hd).symm
    · intro lookup2
      exact h2.trans (P2.checkout_missing2 lookup2 hd).symm
  · intro id hd he hl
    have h1 := PJ.checkout_notfound hd he hl
    refine ⟨h1, ?_, P2.checkout_notfound2 hd he hl⟩
    intro s hs
    rw [h1] at hs
    cases hs

/-- Witness for C7: a concrete request without a dealId is rejected 400. -/
theorem failure_check_order_wit :
    PJ.checkout qNoDeal (lookupOf dealA) =
      CheckoutResult.reject 400 PJ.msgMissingDealId :=
  ((failure_check_order qNoDeal (lookupOf dealA)).1 rfl).1

/-- C8: the checkout computation is deterministic and independent of the
process-wide last-seen-email variable: with the global threaded explicitly,
the charge result is the same for any two initial global values, and
running the same request twice in sequence (the second run starting from
the global state the first run left behind) yields identical results. -/
theorem checkout_state_independent :
    ∀ g g2 q lookup,
      (PJ.handlerCheckoutState g q lookup).1
          = (PJ.handlerCheckoutState g2 q lookup).1
      ∧ (PJ.handlerCheckoutState ((PJ.handlerCheckoutState g q lookup).2) q lookup).1
          = (PJ.handlerCheckoutState g q lookup).1 :=
  fun _ _ _ _ => ⟨rfl, rfl⟩

/-- A concrete appfee checkout that produces a session; used by several
witnesses. -/
theorem checkout_appfee_dealA :
    PJ.checkout (qTypeOf (some tAppfee)) (lookupOf dealA) =
      CheckoutResult.session (mkStripeSession (JSNum.num 250) lblAppFee tAppfee) := by
  refine PJ.checkout_session_of rfl rfl rfl
    (PJ.resolve_appfee _ rfl) ?_
  simp only [jsLe, decide_eq_false_iff_not, not_le]
  norm_num

/-- C3: for every checkout session payments.js creates, the unrounded total
equals baseAmount plus the 3.5 percent surcharge — equivalently baseAmount
times 1.035 — and rounding happens only at session creation: the submitted
minor-unit amount is round(totalWithFee * 100) while baseAmount and
totalWithFee stay exact. -/
theorem surcharge_and_rounding :
    ∀ q lookup s, PJ.checkout q lookup = CheckoutResult.session s →
      s.totalWithFee = jsAdd s.baseAmount (jsMul s.baseAmount (JSNum.num (7/200)))
      ∧ s.unit_amount = jsRound (jsMul s.totalWithFee (JSNum.num 100))
      ∧ (∀ b, s.baseAmount = JSNum.num b →
          s.totalWithFee = JSNum.num (b + b * (7/200))
          ∧ s.totalWithFee = JSNum.num (b * (207/200))) := by
  intro q lookup s h
  obtain ⟨b, l, t, hb, rfl⟩ := PJ.checkout_session_shape h
  refine ⟨rfl, rfl, ?_⟩
  intro v hv
  have hbv : b = JSNum.num v := hv
  subst hbv
  refine ⟨rfl, ?_⟩
  show JSNum.num (v + v * (7/200)) = JSNum.num (v * (207/200))
  congr 1
  ring

/-- Witness for C3 at the concrete appfee checkout. -/
theorem surcharge_and_rounding_wit :
    (mkStripeSession (JSNum.num 250) lblAppFee tAppfee).totalWithFee
        = JSNum.num (250 + 250 * (7/200))
    ∧ (mkStripeSession (JSNum.num 250) lblAppFee tAppfee).unit_amount
        = jsRound (jsMul
            (mkStripeSession (JSNum.num 250) lblAppFee tAppfee).totalWithFee
            (JSNum.num 100)) := by
  have h := surcharge_and_rounding _ _ _ checkout_appfee_dealA
  exact ⟨(h.2.2 250 rfl).1, h.2.1⟩

/-- C2 counterexample: with an unparsable tuition field and the default
payment type, the payments.js guard `baseAmount <= 0` is false on NaN, so a
checkout session is submitted whose base, total and minor-unit amount are
all the NaN sentinel, where the claim requires a no-balance-due
rejection. -/
theorem nan_base_session_cex :
    remainingOf dealNanTuition = JSNum.nan
    ∧ PJ.checkout (qTypeOf none) (lookupOf dealNanTuition) =
        CheckoutResult.session (mkStripeSession JSNum.nan lblRemaining tRemaining)
    ∧ (mkStripeSession JSNum.nan lblRemaining tRemaining).baseAmount = JSNum.nan
    ∧ (mkStripeSession JSNum.nan lblRemaining tRemaining).unit_amount
        = JSNum.nan := by
  have hrem : remainingOf dealNanTuition = JSNum.nan := remainingOf_isNan rfl
  refine ⟨hrem, ?_, rfl, rfl⟩
  have hr := PJ.resolve_default (q := qTypeOf none) dealNanTuition
    (by simp [qTypeOf]) (by simp [qTypeOf]) (by simp [qTypeOf])
  rw [hrem] at hr
  exact PJ.checkout_session_of rfl rfl rfl hr rfl

/-- C2 amended: in payments.js the base amount of a created session is either a
positive number or the NaN sentinel (the guard checks only
`baseAmount <= 0`, which the NaN sentinel from an unparsable tuition
passes); a numeric zero or negative base is always rejected.  In the
part_001 and part_002 variants, whose guards also reject NaN, every created
session has a positive numeric base. -/
theorem positive_base_guard :
    (∀ q lookup s, PJ.checkout q lookup = CheckoutResult.session s →
        s.baseAmount = JSNum.nan ∨ ∃ b, s.baseAmount = JSNum.num b ∧ 0 < b)
    ∧ (∀ q lookup s, P1.checkout q lookup = CheckoutResult.session s →
        ∃ b, s.baseAmount = JSNum.num b ∧ 0 < b)
    ∧ (∀ q lookup s, P2.checkout q lookup = CheckoutResult.session s →
        ∃ b, s.baseAmount = JSNum.num b ∧ 0 < b) := by
  refine ⟨?_, ?_, ?_⟩
  · intro q lookup s h
    obtain ⟨b, l, t, hb, rfl⟩ := PJ.checkout_session_shape h
    cases b with
    | nan => exact Or.inl rfl
    | num v =>
      refine Or.inr ⟨v, rfl, ?_⟩
      simpa only [jsLe, decide_eq_false_iff_not, not_le] using hb
  · intro q lookup s h
    obtain ⟨b, l, hb, rfl⟩ := P1.checkout_session_shape1 h
    cases b with
    | nan => simp [jsTruthy, jsIsNaN, jsLe] at hb
    | num v =>
      refine ⟨v, rfl, ?_⟩
      by_contra hneg
      have hle : v ≤ 0 := not_lt.mp hneg
      simp [jsTruthy, jsIsNaN, jsLe, hle] at hb
  · intro q lookup s h
    obtain ⟨b, l, hb, rfl⟩ := P2.checkout_session_shape2 h
    cases b with
    | nan => simp [jsIsNaN, jsLe] at hb
    | num v =>
      refine ⟨v, rfl, ?_⟩
      by_contra hneg
      have hle : v ≤ 0 := not_lt.mp hneg
      simp [jsIsNaN, jsLe, hle] at hb

/-- Witness for C2 at the concrete appfee checkout. -/
theorem positive_base_guard_wit :
    (mkStripeSession (JSNum.num 250) lblAppFee tAppfee).baseAmount = JSNum.nan
    ∨ ∃ b, (mkStripeSession (JSNum.num 250) lblAppFee tAppfee).baseAmount
        = JSNum.num b ∧ 0 < b :=
  positive_base_guard.1 _ _ _ checkout_appfee_dealA

/-- C1 counterexample: with remaining balance 7500, the requested custom
amount 7500.005 strictly exceeds the remaining balance, yet payments.js
accepts it — the upper-bound check is `amt > remaining + 0.01` — and
creates a session with that base amount, where the claim requires a
rejection for every amount strictly above the remaining balance. -/
theorem custom_tolerance_cex :
    remainingOf dealA = JSNum.num 7500
    ∧ ((7500 : ℚ) < 1500001/200)
    ∧ PJ.checkout (qCustomOf (some (RawStr.numeric (1500001/200)))) (lookupOf dealA)
        = CheckoutResult.session
            (mkStripeSession (JSNum.num (1500001/200)) lblCustom tCustom) := by
  refine ⟨remainingOf_dealA, by norm_num, ?_⟩
  have hin : jsGt (JSNum.num (1500001/200))
      (jsAdd (remainingOf dealA) (JSNum.num (1/100))) = false := by
    rw [remainingOf_dealA]
    simp only [jsAdd, jsGt, decide_eq_false_iff_not, not_lt]
    norm_num
  have hr := PJ.resolve_custom_ok (q := qCustomOf (some (RawStr.numeric (1500001/200))))
    dealA rfl rfl (by norm_num) hin
  refine PJ.checkout_session_of rfl rfl rfl hr ?_
  simp only [jsLe, decide_eq_false_iff_not, not_le]
  norm_num

/-- C1 amended: in payments.js a non-numeric custom amount is rejected, an
amount below 250 is rejected, and the upper-bound check tolerates one cent:
with numeric remaining balance r, the request is rejected exactly when the
amount exceeds r + 0.01 and accepted with baseAmount = amount whenever
250 ≤ amount ≤ r + 0.01.  In the part_000 variant the upper bound is strict
(reject when amount < 250 or amount > r, accept with baseAmount = amount
when 250 ≤ amount ≤ r), but a non-numeric amount passes the validation and
is submitted as a NaN charge. -/
theorem custom_amount_validation :
    (∀ q lookup id p r, q.dealId = some id → id.isEmpty = false →
        lookup id = some p → q.type = some tCustom →
        remainingOf p = JSNum.num r →
        (safeNumber q.amount = JSNum.nan →
          PJ.checkout q lookup = CheckoutResult.reject 400 PJ.msgInvalidCustom)
        ∧ (∀ amt, safeNumber q.amount = JSNum.num amt →
            (amt < 250 →
              PJ.checkout q lookup = CheckoutResult.reject 400 PJ.msgMinCustom)
            ∧ (250 ≤ amt → r + 1/100 < amt →
                PJ.checkout q lookup = CheckoutResult.reject 400 PJ.msgExceeds)
            ∧ (250 ≤ amt → amt ≤ r + 1/100 →
                PJ.checkout q lookup =
                  CheckoutResult.session
                    (mkStripeSession (JSNum.num amt) lblCustom tCustom))))
    ∧ (∀ q lookup id p r amt, q.dealId = some id → id.isEmpty = false →
        lookup id = some p → q.type = some tCustom →
        P0.remainingOf p = JSNum.num r → numParam q.amount = JSNum.num amt →
        (amt < 250 ∨ r < amt →
          P0.checkout q lookup = CheckoutResult.reject 400 P0.msgInvalidAmount)
        ∧ (250 ≤ amt → amt ≤ r →
            P0.checkout q lookup =
              CheckoutResult.session
                (mkStripeSession (JSNum.num amt) lblCustom tCustom)))
    ∧ (∀ q lookup id p, q.dealId = some id → id.isEmpty = false →
        lookup id = some p → q.type = some tCustom →
        numParam q.amount = JSNum.nan →
        P0.checkout q lookup =
          CheckoutResult.session (mkStripeSession JSNum.nan lblCustom tCustom)) := by
  refine ⟨?_, ?_, ?_⟩
  · intro q lookup id p r hd he hl hty hrem
    constructor
    · intro ha
      exact PJ.checkout_reject_of_resolve hd he hl
        (PJ.resolve_custom_invalid p hty ha)
    · intro amt ha
      refine ⟨?_, ?_, ?_⟩
      · intro hlt
        exact PJ.checkout_reject_of_resolve hd he hl
          (PJ.resolve_custom_min p hty ha hlt)
      · intro hge hover
        have hb : jsGt (JSNum.num amt)
            (jsAdd (remainingOf p) (JSNum.num (1/100))) = true := by
          rw [hrem]
          simpa only [jsAdd, jsGt, decide_eq_true_eq] using hover
        exact PJ.checkout_reject_of_resolve hd he hl
          (PJ.resolve_custom_over p hty ha (not_lt.mpr hge) hb)
      · intro hge hin
        have hb : jsGt (JSNum.num amt)
            (jsAdd (remainingOf p) (JSNum.num (1/100))) = false := by
          rw [hrem]
          simpa only [jsAdd, jsGt, decide_eq_false_iff_not, not_lt] using hin
        have hr := PJ.resolve_custom_ok p hty ha (not_lt.mpr hge) hb
        refine PJ.checkout_session_of hd he hl hr ?_
        simp only [jsLe, decide_eq_false_iff_not, not_le]
        exact lt_of_lt_of_le (by norm_num) hge
  · intro q lookup id p r amt hd he hl hty hrem ha
    have hTy : typeOrRemaining q.type = tCustom := by
      rw [hty]; rfl
    constructor
    · intro hbad
      have hb : (jsLt (numParam q.amount) (JSNum.num 250)
          || jsGt (numParam q.amount) (P0.remainingOf p)) = true := by
        rw [ha, hrem]
        rcases hbad with hlt | hgt
        · simp [jsLt, hlt]
        · simp [jsGt, hgt]
      exact P0.checkout_reject_of_resolve0 hd he hl
        (P0.resolve_custom_fail p hty hb)
    · intro hge hle
      have hb : (jsLt (numParam q.amount) (JSNum.num 250)
          || jsGt (numParam q.amount) (P0.remainingOf p)) = false := by
        rw [ha, hrem]
        simp [jsLt, jsGt, not_lt.mpr hge, not_lt.mpr hle]
      have hr := P0.resolve_custom_pass p hty hb
      rw [ha] at hr
      have hs := P0.checkout_session_of0 hd he hl hr ?_
      · rw [hTy] at hs
        exact hs
      · simp only [jsLe, decide_eq_false_iff_not, not_le]
        exact lt_of_lt_of_le (by norm_num) hge
  · intro q lookup id p hd he hl hty ha
    have hTy : typeOrRemaining q.type = tCustom := by
      rw [hty]; rfl
    have hb : (jsLt (numParam q.amount) (JSNum.num 250)
        || jsGt (numParam q.amount) (P0.remainingOf p)) = false := by
      rw [ha]
      cases P0.remainingOf p <;> rfl
    have hr := P0.resolve_custom_pass p hty hb
    rw [ha] at hr
    have hs := P0.checkout_session_of0 hd he hl hr rfl
    rw [hTy] at hs
    exact hs

/-- Witness for C1: a custom amount of 500 against remaining balance 7500
is accepted with baseAmount 500. -/
theorem custom_amount_validation_wit :
    PJ.checkout (qCustomOf (some (RawStr.numeric 500))) (lookupOf dealA) =
      CheckoutResult.session (mkStripeSession (JSNum.num 500) lblCustom tCustom) := by
  have h := (custom_amount_validation.1 (qCustomOf (some (RawStr.numeric 500)))
    (lookupOf dealA) theDealId dealA 7500 rfl rfl rfl rfl remainingOf_dealA).2
    500 rfl
  exact h.2.2 (by norm_num) (by norm_num)

/-- C6 counterexample: for a fully-paid deal with totalPaid 2000 the claim
offers the deposit link (0 < 2000 < 2250), but the portal hides it because
the remaining balance is 0; and for a deal with remaining balance half a
cent the claim offers the remaining-balance link, but the older
single-button portal hides its pay link (it requires remaining > 0.01). -/
theorem portal_deposit_link_cex :
    totalPaid dealFullyPaid = 2000
    ∧ ((0 : ℚ) < 2000 ∧ (2000 : ℚ) < 2250)
    ∧ (PJ.portalLinks dealFullyPaid).depositLink = false
    ∧ remainingOf dealTiny = JSNum.num (1/200)
    ∧ ((0 : ℚ) < 1/200)
    ∧ PJ1.shouldShowPayButton dealTiny = false := by
  have htp : totalPaid dealFullyPaid = 2000 := totalPaid_rollup rfl
  have ha1 : safeNumber dealFullyPaid.amount = JSNum.num 2000 := rfl
  have hrem : remainingOf dealFullyPaid = JSNum.num 0 := by
    rw [remainingOf_num ha1, htp]
    norm_num
  have ha2 : safeNumber dealTiny.amount = JSNum.num (200001/200) := rfl
  have ha3 : safeNumber dealTiny.total_amount_paid = JSNum.num 1000 := rfl
  have htiny : remainingOf dealTiny = JSNum.num (1/200) := by
    rw [remainingOf_num ha2, totalPaid_rollup ha3]
    norm_num
  refine ⟨htp, ⟨by norm_num, by norm_num⟩, ?_, htiny, by norm_num, ?_⟩
  · simp [PJ.portalLinks, hrem, jsGt]
  · rw [PJ1.shouldShowPayButton]
    norm_num [PJ1.totalWithFee, PJ1.fee, htiny, jsGt, jsIsNaN]

/-- C6 amended: in the portals with per-type links (payments.js second
snapshot and part_002, which agree) the application-fee link is offered iff
totalPaid = 0; the deposit link is offered iff 0 < totalPaid < 2250 and
additionally the remaining balance is a positive number; the
remaining-balance link is offered iff the remaining balance is a positive
number.  In the older single-button portal of the first payments.js
snapshot the only pay link is shown iff the remaining balance exceeds
0.01. -/
theorem portal_link_eligibility :
    ∀ p,
      ((PJ.portalLinks p).appFeeLink = true ↔ totalPaid p = 0)
      ∧ ((PJ.portalLinks p).depositLink = true ↔
          0 < totalPaid p ∧ totalPaid p < 2250
            ∧ ∃ r, remainingOf p = JSNum.num r ∧ 0 < r)
      ∧ ((PJ.portalLinks p).remainingLink = true ↔
          ∃ r, remainingOf p = JSNum.num r ∧ 0 < r)
      ∧ P2.portalLinks p = PJ.portalLinks p
      ∧ (PJ1.shouldShowPayButton p = true ↔
          ∃ r, remainingOf p = JSNum.num r ∧ 1/100 < r) := by
  intro p
  cases hrem : remainingOf p with
  | nan =>
    refine ⟨?_, ?_, ?_, ?_, ?_⟩
    · simp [PJ.portalLinks]
    · simp [PJ.portalLinks, hrem, jsGt]
    · simp [PJ.portalLinks, hrem, jsGt]
    · simp [PJ.portalLinks, P2.portalLinks, hrem, jsGt, jsIsNaN]
    · simp [PJ1.shouldShowPayButton, hrem, jsIsNaN]
  | num r =>
    refine ⟨?_, ?_, ?_, ?_, ?_⟩
    · simp [PJ.portalLinks]
    · simp [PJ.portalLinks, hrem, jsGt, and_assoc]
    · simp [PJ.portalLinks, hrem, jsGt]
    · simp [PJ.portalLinks, P2.portalLinks, hrem, jsGt, jsIsNaN]
    · rw [PJ1.shouldShowPayButton, PJ1.totalWithFee, PJ1.fee, hrem]
      by_cases h0 : 0 < r
      · simp [h0, jsGt, jsIsNaN]
      · simp [h0, jsGt, jsIsNaN]
        exact le_trans (not_lt.mp h0) (by norm_num)

/-- Witness for C6: the fully-paid deal offers no remaining-balance
link. -/
theorem portal_link_eligibility_wit :
    (PJ.portalLinks dealFullyPaid).remainingLink = false := by
  have h := (portal_link_eligibility dealFullyPaid).2.2.1
  have ha1 : safeNumber dealFullyPaid.amount = JSNum.num 2000 := rfl
  have ha2 : safeNumber dealFullyPaid.total_amount_paid = JSNum.num 2000 := rfl
  have hrem : remainingOf dealFullyPaid = JSNum.num 0 := by
    rw [remainingOf_num ha1, totalPaid_rollup ha2]
    norm_num
  rw [Bool.eq_false_iff]
  intro hc
  obtain ⟨r, hr, hpos⟩ := h.mp hc
  rw [hrem] at hr
  cases hr
  exact lt_irrefl 0 hpos

/-- C10: with a NaN remaining balance (absent or unparsable tuition) every
numeric custom amount of at least 250 passes the upper-bound comparison —
every comparison of a number with NaN is false — and a checkout session
with that base amount is created however large the amount is, in
payments.js, part_000 and part_001 alike. -/
theorem nan_remaining_custom_unbounded :
    (∀ q lookup id p amt, q.dealId = some id → id.isEmpty = false →
        lookup id = some p → q.type = some tCustom →
        remainingOf p = JSNum.nan →
        safeNumber q.amount = JSNum.num amt → 250 ≤ amt →
        PJ.checkout q lookup =
          CheckoutResult.session (mkStripeSession (JSNum.num amt) lblCustom tCustom))
    ∧ (∀ q lookup id p amt, q.dealId = some id → id.isEmpty = false →
        lookup id = some p → q.type = some tCustom →
        P0.remainingOf p = JSNum.nan →
        numParam q.amount = JSNum.num amt → 250 ≤ amt →
        P0.checkout q lookup =
          CheckoutResult.session (mkStripeSession (JSNum.num amt) lblCustom tCustom))
    ∧ (∀ q lookup id p amt, q.dealId = some id → id.isEmpty = false →
        lookup id = some p → q.type = some tCustom →
        remainingOf p = JSNum.nan →
        safeNumber q.amount = JSNum.num amt → 250 ≤ amt →
        P1.checkout q lookup =
          CheckoutResult.session (mkStripeSession (JSNum.num amt) lblCustom tCustom)) := by
  refine ⟨?_, ?_, ?_⟩
  · intro q lookup id p amt hd he hl hty hrem ha hge
    have hin : jsGt (JSNum.num amt)
        (jsAdd (remainingOf p) (JSNum.num (1/100))) = false := by
      rw [hrem]; rfl
    have hr := PJ.resolve_custom_ok p hty ha (not_lt.mpr hge) hin
    refine PJ.checkout_session_of hd he hl hr ?_
    simp only [jsLe, decide_eq_false_iff_not, not_le]
    exact lt_of_lt_of_le (by norm_num) hge
  · intro q lookup id p amt hd he hl hty hrem ha hge
    have hTy : typeOrRemaining q.type = tCustom := by
      rw [hty]; rfl
    have hb : (jsLt (numParam q.amount) (JSNum.num 250)
        || jsGt (numParam q.amount) (P0.remainingOf p)) = false := by
      rw [ha, hrem]
      simp [jsLt, jsGt, not_lt.mpr hge]
    have hr := P0.resolve_custom_pass p hty hb
    rw [ha] at hr
    have hs := P0.checkout_session_of0 hd he hl hr ?_
    · rw [hTy] at hs
      exact hs
    · simp only [jsLe, decide_eq_false_iff_not, not_le]
      exact lt_of_lt_of_le (by norm_num) hge
  · intro q lookup id p amt hd he hl hty hrem ha hge
    have hTy : typeOrRemaining q.type = tCustom := by
      rw [hty]; rfl
    have hamt : (0 : ℚ) < amt := lt_of_lt_of_le (by norm_num) hge
    have hin : (!jsIsNaN (remainingOf p)
        && jsGt (JSNum.num amt) (remainingOf p)) = false := by
      rw [hrem]; rfl
    have hr := P1.resolve_custom_ok1 p hty ha (not_lt.mpr hge) hin
    have hs := P1.checkout_session_of1 hd he hl hr ?_
    · rw [hTy] at hs
      exact hs
    · simp [jsTruthy, jsIsNaN, jsLe, ne_of_gt hamt, not_le.mpr hamt]

/-- Witness for C10: with an unparsable tuition, a custom amount of one
million is accepted and charged. -/
theorem nan_remaining_custom_unbounded_wit :
    PJ.checkout (qCustomOf (some (RawStr.numeric 1000000))) (lookupOf dealNanTuition)
      = CheckoutResult.session
          (mkStripeSession (JSNum.num 1000000) lblCustom tCustom) :=
  nan_remaining_custom_unbounded.1 _ _ theDealId dealNanTuition 1000000
    rfl rfl rfl rfl (remainingOf_isNan rfl) rfl (by norm_num)
